import Mathlib

/-!
Shallow embedding of `programs/metaplex-core-nft/src/lib.rs`.

The program is an Anchor glue layer with four entry points
(`create_collection`, `mint_nft`, `update_nft`, `transfer_nft`), each of
which builds exactly one cross-program invocation against the Metaplex
Core program.  We embed:

* the `mpl_core::types` argument records actually used by the source
  (`Creator`, `Royalties`, `RuleSet`, `Plugin`, `PluginAuthority`,
  `PluginAuthorityPair`, `DataState`);
* the four Anchor `Accounts` structs, each carrying the account keys the
  handler reads (account keys are modelled as natural numbers);
* Anchor account validation: every struct constrains its
  `mpl_core_program` account with `#[account(address = MPL_CORE_ID)]`,
  and Anchor runs this check before the handler body executes, so each
  entry point first compares that key with the fixed program id and
  fails with a constraint error on mismatch;
* the handler bodies, as functions from accounts and instruction
  arguments to `Except ProgramError <invocation record>`, where the
  invocation record collects exactly the fields the source sets on the
  corresponding `CpiBuilder` before calling `.invoke()`.

Machine integers are modelled as `Nat` with explicit reductions: the
`royalty_percentage: u8` argument is reduced `% 256`, and the u16
multiplication `(royalty_percentage as u16) * 100` is reduced `% 65536`.
-/

/-- Account keys (32-byte public keys in the source) are abstracted as
natural numbers; only equality on them matters to this program. -/
abbrev Pubkey := Nat

/-- Fixed identity of the external Metaplex Core program
(`mpl_core::ID`, imported as `MPL_CORE_ID` in the source).  The concrete
32-byte value is irrelevant to the logic; we pick a fixed natural. -/
def MPL_CORE_ID : Pubkey := 777

/-- Royalty creator entry (`mpl_core::types::Creator`). -/
structure Creator where
  address : Pubkey
  percentage : Nat
  deriving DecidableEq, Repr

/-- Transfer rule set (`mpl_core::types::RuleSet`). -/
inductive RuleSet where
  | None
  | ProgramAllowList (programs : List Pubkey)
  | ProgramDenyList (programs : List Pubkey)
  deriving DecidableEq, Repr

/-- Royalties plugin payload (`mpl_core::types::Royalties`).  The
`basis_points` field is u16 in the source. -/
structure Royalties where
  basis_points : Nat
  creators : List Creator
  rule_set : RuleSet
  deriving DecidableEq, Repr

/-- Plugin authority (`mpl_core::types::PluginAuthority`): either no
authority, the asset owner role, the update-authority role, or a fixed
account address. -/
inductive PluginAuthority where
  | None
  | Owner
  | UpdateAuthority
  | Address (address : Pubkey)
  deriving DecidableEq, Repr

/-- Plugin payloads used by the source (`mpl_core::types::Plugin`):
the royalties plugin and the freeze-delegate plugin with its frozen
state. -/
inductive Plugin where
  | Royalties (royalties : Royalties)
  | FreezeDelegate (frozen : Bool)
  deriving DecidableEq, Repr

/-- A plugin together with its designated authority
(`mpl_core::types::PluginAuthorityPair`). -/
structure PluginAuthorityPair where
  plugin : Plugin
  authority : Option PluginAuthority
  deriving DecidableEq, Repr

/-- Data storage state for a created asset (`mpl_core::types::DataState`). -/
inductive DataState where
  | AccountState
  | LedgerState
  deriving DecidableEq, Repr

/-- Error raised when Anchor account validation fails.  The only
in-source constraint relevant here is `#[account(address = MPL_CORE_ID)]`
on the `mpl_core_program` account of each of the four account structs. -/
inductive ProgramError where
  | ConstraintAddress
  deriving DecidableEq, Repr

/-- Accounts of the `CreateCollection` context (keys only). -/
structure CreateCollectionAccounts where
  collection : Pubkey
  authority : Pubkey
  payer : Pubkey
  system_program : Pubkey
  mpl_core_program : Pubkey
  deriving DecidableEq, Repr

/-- Accounts of the `MintNft` context (keys only). -/
structure MintNftAccounts where
  asset : Pubkey
  collection : Pubkey
  authority : Pubkey
  owner : Pubkey
  payer : Pubkey
  system_program : Pubkey
  mpl_core_program : Pubkey
  deriving DecidableEq, Repr

/-- Accounts of the `UpdateNft` context (keys only). -/
structure UpdateNftAccounts where
  asset : Pubkey
  collection : Pubkey
  authority : Pubkey
  payer : Pubkey
  mpl_core_program : Pubkey
  deriving DecidableEq, Repr

/-- Accounts of the `TransferNft` context (keys only). -/
structure TransferNftAccounts where
  asset : Pubkey
  collection : Pubkey
  authority : Pubkey
  new_owner : Pubkey
  payer : Pubkey
  mpl_core_program : Pubkey
  deriving DecidableEq, Repr

/-- Outbound call assembled by `CreateCollectionV1CpiBuilder` in
`create_collection`: the fields the source sets before `.invoke()`. -/
structure CreateCollectionV1Invocation where
  program : Pubkey
  collection : Pubkey
  update_authority : Option Pubkey
  payer : Pubkey
  system_program : Pubkey
  name : String
  uri : String
  plugins : Option (List PluginAuthorityPair)
  deriving DecidableEq, Repr

/-- Outbound call assembled by `CreateV1CpiBuilder` in `mint_nft`. -/
structure CreateV1Invocation where
  program : Pubkey
  asset : Pubkey
  collection : Option Pubkey
  authority : Option Pubkey
  payer : Pubkey
  owner : Option Pubkey
  system_program : Pubkey
  name : String
  uri : String
  data_state : DataState
  plugins : Option (List PluginAuthorityPair)
  deriving DecidableEq, Repr

/-- Outbound call assembled by `UpdateV1CpiBuilder` in `update_nft`.
The `new_name` and `new_uri` mutation fields are unset unless the
handler sets them. -/
structure UpdateV1Invocation where
  program : Pubkey
  asset : Pubkey
  collection : Option Pubkey
  payer : Pubkey
  authority : Option Pubkey
  new_name : Option String
  new_uri : Option String
  deriving DecidableEq, Repr

/-- Outbound call assembled by `TransferV1CpiBuilder` in `transfer_nft`. -/
structure TransferV1Invocation where
  program : Pubkey
  asset : Pubkey
  collection : Option Pubkey
  payer : Pubkey
  authority : Option Pubkey
  new_owner : Pubkey
  deriving DecidableEq, Repr

/-- Entry point `create_collection` (lib.rs lines 22-60).  Anchor first
checks the `address = MPL_CORE_ID` constraint; the handler then builds
the royalties plugin with `basis_points = (royalty_percentage as u16) * 100`,
a single creator (the authority, share 100), `RuleSet::None`, plugin
authority `Owner`, and issues one `CreateCollectionV1` invocation. -/
def create_collection (accounts : CreateCollectionAccounts)
    (name uri : String) (royalty_percentage : Nat) :
    Except ProgramError CreateCollectionV1Invocation :=
  if accounts.mpl_core_program = MPL_CORE_ID then
    let royalties : Royalties :=
      { basis_points := ((royalty_percentage % 256) * 100) % 65536
        creators := [{ address := accounts.authority, percentage := 100 }]
        rule_set := RuleSet.None }
    let plugins : List PluginAuthorityPair :=
      [{ plugin := Plugin.Royalties royalties
         authority := some PluginAuthority.Owner }]
    Except.ok
      { program := accounts.mpl_core_program
        collection := accounts.collection
        update_authority := some accounts.authority
        payer := accounts.payer
        system_program := accounts.system_program
        name := name
        uri := uri
        plugins := some plugins }
  else
    Except.error ProgramError.ConstraintAddress

/-- Entry point `mint_nft` (lib.rs lines 63-102).  Anchor first checks
the `address = MPL_CORE_ID` constraint; the handler starts from an empty
plugin vector, pushes a `FreezeDelegate { frozen: false }` pair with
authority `Owner` when `add_freeze_plugin` is true, sets the plugins on
the builder only when the vector is non-empty, and issues one
`CreateV1` invocation. -/
def mint_nft (accounts : MintNftAccounts) (name uri : String)
    (add_freeze_plugin : Bool) :
    Except ProgramError CreateV1Invocation :=
  if accounts.mpl_core_program = MPL_CORE_ID then
    let plugins : List PluginAuthorityPair :=
      if add_freeze_plugin then
        [{ plugin := Plugin.FreezeDelegate false
           authority := some PluginAuthority.Owner }]
      else []
    Except.ok
      { program := accounts.mpl_core_program
        asset := accounts.asset
        collection := some accounts.collection
        authority := some accounts.authority
        payer := accounts.payer
        owner := some accounts.owner
        system_program := accounts.system_program
        name := name
        uri := uri
        data_state := DataState.AccountState
        plugins := if plugins.isEmpty then none else some plugins }
  else
    Except.error ProgramError.ConstraintAddress

/-- Entry point `update_nft` (lib.rs lines 105-130).  Anchor first
checks the `address = MPL_CORE_ID` constraint; the handler sets the
`new_name` mutation field only when the optional `name` argument is
present, likewise `new_uri` for `uri`, and issues one `UpdateV1`
invocation. -/
def update_nft (accounts : UpdateNftAccounts)
    (name uri : Option String) :
    Except ProgramError UpdateV1Invocation :=
  if accounts.mpl_core_program = MPL_CORE_ID then
    let builder0 : UpdateV1Invocation :=
      { program := accounts.mpl_core_program
        asset := accounts.asset
        collection := some accounts.collection
        payer := accounts.payer
        authority := some accounts.authority
        new_name := none
        new_uri := none }
    let builder1 : UpdateV1Invocation :=
      match name with
      | some n => { builder0 with new_name := some n }
      | none => builder0
    let builder2 : UpdateV1Invocation :=
      match uri with
      | some u => { builder1 with new_uri := some u }
      | none => builder1
    Except.ok builder2
  else
    Except.error ProgramError.ConstraintAddress

/-- Entry point `transfer_nft` (lib.rs lines 133-146).  Anchor first
checks the `address = MPL_CORE_ID` constraint; the handler takes no
instruction arguments and issues one `TransferV1` invocation whose new
owner is the supplied `new_owner` account. -/
def transfer_nft (accounts : TransferNftAccounts) :
    Except ProgramError TransferV1Invocation :=
  if accounts.mpl_core_program = MPL_CORE_ID then
    Except.ok
      { program := accounts.mpl_core_program
        asset := accounts.asset
        collection := some accounts.collection
        payer := accounts.payer
        authority := some accounts.authority
        new_owner := accounts.new_owner }
  else
    Except.error ProgramError.ConstraintAddress

/-- Number of external invocations performed by a handler run: one when
the builder reaches `.invoke()`, zero when the call failed before. -/
def invocationCount {e a : Type} : Except e a → Nat
  | Except.ok _ => 1
  | Except.error _ => 0

/-! ### Concrete account sets used by witnesses and counterexamples -/

/-- Concrete, valid account set for `create_collection`. -/
def ccAccounts0 : CreateCollectionAccounts :=
  { collection := 1, authority := 2, payer := 3, system_program := 0
    mpl_core_program := MPL_CORE_ID }

/-- Concrete, valid account set for `mint_nft`; the authority account (3)
and the owner account (4) are distinct. -/
def mintAccounts0 : MintNftAccounts :=
  { asset := 1, collection := 2, authority := 3, owner := 4, payer := 5
    system_program := 0, mpl_core_program := MPL_CORE_ID }

/-- Concrete, valid account set for `update_nft`. -/
def updAccounts0 : UpdateNftAccounts :=
  { asset := 1, collection := 2, authority := 3, payer := 4
    mpl_core_program := MPL_CORE_ID }

/-- Concrete, valid account set for `transfer_nft`. -/
def trAccounts0 : TransferNftAccounts :=
  { asset := 1, collection := 2, authority := 3, new_owner := 4, payer := 5
    mpl_core_program := MPL_CORE_ID }

/-! ### C1 -/

/-- C1: for every royalty percentage p in [0,100] passed to
`create_collection` (with the account validation passing), the outbound
call carries a royalties configuration whose basis-points field is
exactly 100 * p, and whose creator list is exactly one entry with the
authority account as address and share 100. -/
theorem create_collection_royalty_exact (accounts : CreateCollectionAccounts)
    (name uri : String) (p : Nat) (hp : p ≤ 100)
    (hprog : accounts.mpl_core_program = MPL_CORE_ID) :
    create_collection accounts name uri p = Except.ok
      { program := MPL_CORE_ID
        collection := accounts.collection
        update_authority := some accounts.authority
        payer := accounts.payer
        system_program := accounts.system_program
        name := name
        uri := uri
        plugins := some
          [{ plugin := Plugin.Royalties
              { basis_points := 100 * p
                creators := [{ address := accounts.authority, percentage := 100 }]
                rule_set := RuleSet.None }
             authority := some PluginAuthority.Owner }] } := by
  have h1 : p % 256 = p := Nat.mod_eq_of_lt (by omega)
  have h2 : (p * 100) % 65536 = p * 100 := Nat.mod_eq_of_lt (by omega)
  simp [create_collection, hprog, h1, h2, Nat.mul_comm]

/-- Witness for C1 at percentage 5: basis points 500, single creator
(authority account 2, share 100). -/
theorem create_collection_royalty_exact_witness :
    create_collection ccAccounts0 "Genesis" "https://x" 5 = Except.ok
      { program := MPL_CORE_ID
        collection := ccAccounts0.collection
        update_authority := some ccAccounts0.authority
        payer := ccAccounts0.payer
        system_program := ccAccounts0.system_program
        name := "Genesis"
        uri := "https://x"
        plugins := some
          [{ plugin := Plugin.Royalties
              { basis_points := 100 * 5
                creators := [{ address := ccAccounts0.authority, percentage := 100 }]
                rule_set := RuleSet.None }
             authority := some PluginAuthority.Owner }] } :=
  create_collection_royalty_exact ccAccounts0 "Genesis" "https://x" 5
    (by decide) (by decide)

/-! ### C6 -/

/-- C6: for every `create_collection` call that reaches the invocation,
the royalty configuration carries an owner-controlled royalty rule (the
royalty plugin authority pair designates `PluginAuthority.Owner`) and an
empty transfer rule set (`RuleSet.None`, open transfers). -/
theorem create_collection_owner_rule_open_transfers
    (accounts : CreateCollectionAccounts) (name uri : String) (p : Nat)
    (hprog : accounts.mpl_core_program = MPL_CORE_ID) :
    ∃ r : Royalties,
      create_collection accounts name uri p = Except.ok
        { program := MPL_CORE_ID
          collection := accounts.collection
          update_authority := some accounts.authority
          payer := accounts.payer
          system_program := accounts.system_program
          name := name
          uri := uri
          plugins := some
            [{ plugin := Plugin.Royalties r
               authority := some PluginAuthority.Owner }] } ∧
      r.rule_set = RuleSet.None := by
  refine ⟨{ basis_points := ((p % 256) * 100) % 65536
            creators := [{ address := accounts.authority, percentage := 100 }]
            rule_set := RuleSet.None }, ?_, rfl⟩
  simp [create_collection, hprog]

/-- Witness for C6 at percentage 5 on the concrete valid account set. -/
theorem create_collection_owner_rule_open_transfers_witness :
    ∃ r : Royalties,
      create_collection ccAccounts0 "Genesis" "https://x" 5 = Except.ok
        { program := MPL_CORE_ID
          collection := ccAccounts0.collection
          update_authority := some ccAccounts0.authority
          payer := ccAccounts0.payer
          system_program := ccAccounts0.system_program
          name := "Genesis"
          uri := "https://x"
          plugins := some
            [{ plugin := Plugin.Royalties r
               authority := some PluginAuthority.Owner }] } ∧
      r.rule_set = RuleSet.None :=
  create_collection_owner_rule_open_transfers ccAccounts0 "Genesis" "https://x" 5
    (by decide)

/-! ### C8 -/

/-- C8: the conversion of the royalty percentage (a u8) to u16 basis
points can never overflow, so whenever the invocation is reached the
basis-points value equals 100 times the percentage with no wrap-around:
for every u8 percentage p, the computed value 100 * p is below 65536 and
the outbound basis-points field is exactly 100 * p.  The claim's guard
("if the conversion would overflow, abort before invocation") is
vacuously satisfied because no u8 input can overflow the u16 field. -/
theorem create_collection_basis_points_no_wrap
    (accounts : CreateCollectionAccounts) (name uri : String) (p : Nat)
    (hp : p < 256)
    (hprog : accounts.mpl_core_program = MPL_CORE_ID) :
    ∃ r : Royalties,
      create_collection accounts name uri p = Except.ok
        { program := MPL_CORE_ID
          collection := accounts.collection
          update_authority := some accounts.authority
          payer := accounts.payer
          system_program := accounts.system_program
          name := name
          uri := uri
          plugins := some
            [{ plugin := Plugin.Royalties r
               authority := some PluginAuthority.Owner }] } ∧
      r.basis_points = 100 * p ∧ 100 * p < 65536 := by
  have h1 : p % 256 = p := Nat.mod_eq_of_lt hp
  have h2 : (p * 100) % 65536 = p * 100 := Nat.mod_eq_of_lt (by omega)
  refine ⟨{ basis_points := 100 * p
            creators := [{ address := accounts.authority, percentage := 100 }]
            rule_set := RuleSet.None }, ?_, rfl, by omega⟩
  simp [create_collection, hprog, h1, h2, Nat.mul_comm]

/-- Witness for C8 at the maximal u8 percentage 255: basis points 25500,
still below 65536. -/
theorem create_collection_basis_points_no_wrap_witness :
    ∃ r : Royalties,
      create_collection ccAccounts0 "n" "u" 255 = Except.ok
        { program := MPL_CORE_ID
          collection := ccAccounts0.collection
          update_authority := some ccAccounts0.authority
          payer := ccAccounts0.payer
          system_program := ccAccounts0.system_program
          name := "n"
          uri := "u"
          plugins := some
            [{ plugin := Plugin.Royalties r
               authority := some PluginAuthority.Owner }] } ∧
      r.basis_points = 100 * 255 ∧ 100 * 255 < 65536 :=
  create_collection_basis_points_no_wrap ccAccounts0 "n" "u" 255
    (by decide) (by decide)

/-! ### C10 -/

/-- C10: `create_collection` performs no range validation of the royalty
percentage against the documented 0-100 domain: for every u8 percentage
p (the full range [0,255]) with valid accounts the call reaches the
invocation, the outbound basis-points value is exactly 100 * p computed
without wrap-around (so at most 25500), and for p in [101,255] it
exceeds the 10000 basis points corresponding to 100%. -/
theorem create_collection_no_range_validation
    (accounts : CreateCollectionAccounts) (name uri : String) (p : Nat)
    (hp : p ≤ 255)
    (hprog : accounts.mpl_core_program = MPL_CORE_ID) :
    ∃ r : Royalties,
      create_collection accounts name uri p = Except.ok
        { program := MPL_CORE_ID
          collection := accounts.collection
          update_authority := some accounts.authority
          payer := accounts.payer
          system_program := accounts.system_program
          name := name
          uri := uri
          plugins := some
            [{ plugin := Plugin.Royalties r
               authority := some PluginAuthority.Owner }] } ∧
      r.basis_points = 100 * p ∧ r.basis_points ≤ 25500 ∧
      (101 ≤ p → 10000 < r.basis_points) := by
  have h1 : p % 256 = p := Nat.mod_eq_of_lt (by omega)
  have h2 : (p * 100) % 65536 = p * 100 := Nat.mod_eq_of_lt (by omega)
  refine ⟨{ basis_points := 100 * p
            creators := [{ address := accounts.authority, percentage := 100 }]
            rule_set := RuleSet.None }, ?_, rfl,
          by show 100 * p ≤ 25500; omega,
          fun h => by show 10000 < 100 * p; omega⟩
  simp [create_collection, hprog, h1, h2, Nat.mul_comm]

/-- Witness for C10 at the out-of-domain percentage 200: the call still
reaches the invocation and the basis points are 20000 > 10000. -/
theorem create_collection_no_range_validation_witness :
    ∃ r : Royalties,
      create_collection ccAccounts0 "n" "u" 200 = Except.ok
        { program := MPL_CORE_ID
          collection := ccAccounts0.collection
          update_authority := some ccAccounts0.authority
          payer := ccAccounts0.payer
          system_program := ccAccounts0.system_program
          name := "n"
          uri := "u"
          plugins := some
            [{ plugin := Plugin.Royalties r
               authority := some PluginAuthority.Owner }] } ∧
      r.basis_points = 100 * 200 ∧ r.basis_points ≤ 25500 ∧
      (101 ≤ 200 → 10000 < r.basis_points) :=
  create_collection_no_range_validation ccAccounts0 "n" "u" 200
    (by decide) (by decide)

/-! ### C2 -/

/-- Tests whether a plugin pair carries a freeze-capable plugin
(a `FreezeDelegate` payload, the only freeze-capable plugin the source
can attach). -/
def isFreezePair (pair : PluginAuthorityPair) : Bool :=
  match pair.plugin with
  | Plugin.FreezeDelegate _ => true
  | _ => false

/-- Formalizes the claim wording "contains exactly one freeze-capable
plugin initialized to the not-frozen state and owned by the authority":
the freeze-capable entries of the plugin list are exactly one pair,
not frozen, whose plugin authority designates the given account (the
only way an invocation payload can designate a specific account as a
plugin authority is `PluginAuthority.Address`). -/
abbrev freezePluginOwnedByAccount (plugins : List PluginAuthorityPair)
    (account : Pubkey) : Prop :=
  plugins.filter isFreezePair =
    [{ plugin := Plugin.FreezeDelegate false
       authority := some (PluginAuthority.Address account) }]

/-- Outbound call produced by `mint_nft` on the concrete valid account
set with the freeze flag set. -/
def mintInv0 : CreateV1Invocation :=
  { program := MPL_CORE_ID
    asset := 1
    collection := some 2
    authority := some 3
    payer := 5
    owner := some 4
    system_program := 0
    name := "Item #1"
    uri := "https://x"
    data_state := DataState.AccountState
    plugins := some
      [{ plugin := Plugin.FreezeDelegate false
         authority := some PluginAuthority.Owner }] }

/-- Counterexample to C2 as stated: on the concrete valid account set
(authority account 3, owner account 4), a `mint_nft` call with freeze
flag true produces an outbound call whose single freeze plugin has the
owner role as its authority, so the plugin list does NOT contain a
freeze plugin owned by the authority account. -/
theorem mint_nft_freeze_not_authority_owned :
    mint_nft mintAccounts0 "Item #1" "https://x" true = Except.ok mintInv0 ∧
    ¬ freezePluginOwnedByAccount (mintInv0.plugins.getD []) mintAccounts0.authority := by
  constructor
  · rfl
  · decide

/-- C2 (amended): for every `mint_nft` call with freeze flag true (and
valid accounts), the plugin list of the outbound call contains exactly
one freeze-capable plugin, initialized to the not-frozen state, whose
plugin authority is the owner role (`PluginAuthority.Owner`, the asset
owner) rather than the authority account; with freeze flag false, the
outbound call carries no plugin at all. -/
theorem mint_nft_freeze_plugin_owner_role (accounts : MintNftAccounts)
    (name uri : String)
    (hprog : accounts.mpl_core_program = MPL_CORE_ID) :
    (∃ inv, mint_nft accounts name uri true = Except.ok inv ∧
      inv.plugins = some
        [{ plugin := Plugin.FreezeDelegate false
           authority := some PluginAuthority.Owner }]) ∧
    (∃ inv, mint_nft accounts name uri false = Except.ok inv ∧
      inv.plugins = none) := by
  constructor
  · refine ⟨{ program := MPL_CORE_ID
              asset := accounts.asset
              collection := some accounts.collection
              authority := some accounts.authority
              payer := accounts.payer
              owner := some accounts.owner
              system_program := accounts.system_program
              name := name
              uri := uri
              data_state := DataState.AccountState
              plugins := some
                [{ plugin := Plugin.FreezeDelegate false
                   authority := some PluginAuthority.Owner }] }, ?_, rfl⟩
    simp [mint_nft, hprog]
  · refine ⟨{ program := MPL_CORE_ID
              asset := accounts.asset
              collection := some accounts.collection
              authority := some accounts.authority
              payer := accounts.payer
              owner := some accounts.owner
              system_program := accounts.system_program
              name := name
              uri := uri
              data_state := DataState.AccountState
              plugins := none }, ?_, rfl⟩
    simp [mint_nft, hprog]

/-- Witness for the amended C2 on the concrete valid account set. -/
theorem mint_nft_freeze_plugin_owner_role_witness :
    (∃ inv, mint_nft mintAccounts0 "Item #1" "https://x" true = Except.ok inv ∧
      inv.plugins = some
        [{ plugin := Plugin.FreezeDelegate false
           authority := some PluginAuthority.Owner }]) ∧
    (∃ inv, mint_nft mintAccounts0 "Item #1" "https://x" false = Except.ok inv ∧
      inv.plugins = none) :=
  mint_nft_freeze_plugin_owner_role mintAccounts0 "Item #1" "https://x"
    (by decide)

/-! ### C4 -/

/-- C4: for every `update_nft` call (with valid accounts), the optional
name and uri arguments are handled independently: the outbound call's
new-name mutation field equals the optional name argument and its
new-uri mutation field equals the optional uri argument, so each field
is included exactly when it is present in the request. -/
theorem update_nft_fields_independent (accounts : UpdateNftAccounts)
    (name uri : Option String)
    (hprog : accounts.mpl_core_program = MPL_CORE_ID) :
    update_nft accounts name uri = Except.ok
      { program := MPL_CORE_ID
        asset := accounts.asset
        collection := some accounts.collection
        payer := accounts.payer
        authority := some accounts.authority
        new_name := name
        new_uri := uri } := by
  cases name <;> cases uri <;> simp [update_nft, hprog]

/-- Witness for C4 with only the name present: the outbound call carries
a new-name mutation and no new-uri mutation. -/
theorem update_nft_fields_independent_witness :
    update_nft updAccounts0 (some "NewName") none = Except.ok
      { program := MPL_CORE_ID
        asset := updAccounts0.asset
        collection := some updAccounts0.collection
        payer := updAccounts0.payer
        authority := some updAccounts0.authority
        new_name := some "NewName"
        new_uri := none } :=
  update_nft_fields_independent updAccounts0 (some "NewName") none (by decide)

/-! ### C5 -/

/-- C5: an `update_nft` call with both optional fields absent (and valid
accounts) still produces a well-formed outbound call, carrying the full
account set and no mutation field (new name and new uri both unset). -/
theorem update_nft_noop_still_invokes (accounts : UpdateNftAccounts)
    (hprog : accounts.mpl_core_program = MPL_CORE_ID) :
    update_nft accounts none none = Except.ok
      { program := MPL_CORE_ID
        asset := accounts.asset
        collection := some accounts.collection
        payer := accounts.payer
        authority := some accounts.authority
        new_name := none
        new_uri := none } := by
  simp [update_nft, hprog]

/-- Witness for C5 on the concrete valid account set. -/
theorem update_nft_noop_still_invokes_witness :
    update_nft updAccounts0 none none = Except.ok
      { program := MPL_CORE_ID
        asset := updAccounts0.asset
        collection := some updAccounts0.collection
        payer := updAccounts0.payer
        authority := some updAccounts0.authority
        new_name := none
        new_uri := none } :=
  update_nft_noop_still_invokes updAccounts0 (by decide)

/-! ### C9 -/

/-- C9: `transfer_nft` carries no payload beyond its account set — the
entry point takes no instruction arguments, and the outbound call it
issues (with valid accounts) is fully determined by the account set,
with the supplied new-owner account designated as the new owner. -/
theorem transfer_nft_accounts_only (accounts : TransferNftAccounts)
    (hprog : accounts.mpl_core_program = MPL_CORE_ID) :
    transfer_nft accounts = Except.ok
      { program := MPL_CORE_ID
        asset := accounts.asset
        collection := some accounts.collection
        payer := accounts.payer
        authority := some accounts.authority
        new_owner := accounts.new_owner } := by
  simp [transfer_nft, hprog]

/-- Witness for C9 on the concrete valid account set: account 4 becomes
the new owner. -/
theorem transfer_nft_accounts_only_witness :
    transfer_nft trAccounts0 = Except.ok
      { program := MPL_CORE_ID
        asset := trAccounts0.asset
        collection := some trAccounts0.collection
        payer := trAccounts0.payer
        authority := some trAccounts0.authority
        new_owner := trAccounts0.new_owner } :=
  transfer_nft_accounts_only trAccounts0 (by decide)

/-! ### C3 -/

/-- C3: for each of the four entry points, if the supplied external
program account differs from the fixed Metaplex Core program identity,
the call fails with the address-constraint structural error — no
invocation record is produced, so no translation output reaches the
external program. -/
theorem entry_points_reject_wrong_core_program
    (a1 : CreateCollectionAccounts) (a2 : MintNftAccounts)
    (a3 : UpdateNftAccounts) (a4 : TransferNftAccounts)
    (name uri : String) (p : Nat) (oname ouri : Option String) (fz : Bool)
    (h1 : a1.mpl_core_program ≠ MPL_CORE_ID)
    (h2 : a2.mpl_core_program ≠ MPL_CORE_ID)
    (h3 : a3.mpl_core_program ≠ MPL_CORE_ID)
    (h4 : a4.mpl_core_program ≠ MPL_CORE_ID) :
    create_collection a1 name uri p
        = Except.error ProgramError.ConstraintAddress ∧
    mint_nft a2 name uri fz = Except.error ProgramError.ConstraintAddress ∧
    update_nft a3 oname ouri = Except.error ProgramError.ConstraintAddress ∧
    transfer_nft a4 = Except.error ProgramError.ConstraintAddress := by
  refine ⟨?_, ?_, ?_, ?_⟩
  · simp [create_collection, h1]
  · simp [mint_nft, h2]
  · simp [update_nft, h3]
  · simp [transfer_nft, h4]

/-- Witness for C3: concrete account sets whose external-program account
is 0 (distinct from the fixed identity) make all four entry points fail
with the address-constraint error. -/
theorem entry_points_reject_wrong_core_program_witness :
    create_collection
        { collection := 1, authority := 2, payer := 3, system_program := 0
          mpl_core_program := 0 } "n" "u" 5
        = Except.error ProgramError.ConstraintAddress ∧
    mint_nft
        { asset := 1, collection := 2, authority := 3, owner := 4, payer := 5
          system_program := 0, mpl_core_program := 0 } "n" "u" true
        = Except.error ProgramError.ConstraintAddress ∧
    update_nft
        { asset := 1, collection := 2, authority := 3, payer := 4
          mpl_core_program := 0 } (some "n") none
        = Except.error ProgramError.ConstraintAddress ∧
    transfer_nft
        { asset := 1, collection := 2, authority := 3, new_owner := 4
          payer := 5, mpl_core_program := 0 }
        = Except.error ProgramError.ConstraintAddress :=
  entry_points_reject_wrong_core_program
    { collection := 1, authority := 2, payer := 3, system_program := 0
      mpl_core_program := 0 }
    { asset := 1, collection := 2, authority := 3, owner := 4, payer := 5
      system_program := 0, mpl_core_program := 0 }
    { asset := 1, collection := 2, authority := 3, payer := 4
      mpl_core_program := 0 }
    { asset := 1, collection := 2, authority := 3, new_owner := 4
      payer := 5, mpl_core_program := 0 }
    "n" "u" 5 (some "n") none true
    (by decide) (by decide) (by decide) (by decide)

/-! ### C7 -/

/-- C7: every call to any of the four entry points performs exactly one
external invocation when the account validation passes and zero when the
call fails before the invocation step; no entry point ever performs more
than one invocation. -/
theorem entry_points_single_invocation
    (a1 : CreateCollectionAccounts) (a2 : MintNftAccounts)
    (a3 : UpdateNftAccounts) (a4 : TransferNftAccounts)
    (name uri : String) (p : Nat) (oname ouri : Option String) (fz : Bool) :
    invocationCount (create_collection a1 name uri p)
        = (if a1.mpl_core_program = MPL_CORE_ID then 1 else 0) ∧
    invocationCount (mint_nft a2 name uri fz)
        = (if a2.mpl_core_program = MPL_CORE_ID then 1 else 0) ∧
    invocationCount (update_nft a3 oname ouri)
        = (if a3.mpl_core_program = MPL_CORE_ID then 1 else 0) ∧
    invocationCount (transfer_nft a4)
        = (if a4.mpl_core_program = MPL_CORE_ID then 1 else 0) := by
  refine ⟨?_, ?_, ?_, ?_⟩
  · by_cases h : a1.mpl_core_program = MPL_CORE_ID <;>
      simp [create_collection, invocationCount, h]
  · by_cases h : a2.mpl_core_program = MPL_CORE_ID <;>
      simp [mint_nft, invocationCount, h]
  · by_cases h : a3.mpl_core_program = MPL_CORE_ID <;>
      simp [update_nft, invocationCount, h]
  · by_cases h : a4.mpl_core_program = MPL_CORE_ID <;>
      simp [transfer_nft, invocationCount, h]
